import Mathlib

/-!
Shallow embedding of the core of `sketch.js` (Digital Ripples): the
`Ripple` class, the per-frame ripple pass of `draw`, and the
`ActivityManager` state machine.  JS numbers are modelled as exact
rationals (`ℚ`); the transcendental pieces of the amplitude / micro-ripple
math (`Math.pow` with fractional exponent, `sin`, `cos`) live in `ℝ`.

Naming: the four members of `ACTIONS` keep their source names.  The spec
document calls `POSITIVE_COMMENT` "Positive"/"NoiseComment" and
`NEGATIVE_COMMENT` "SilenceComment"; the claim statements below use the
source names.
-/

set_option linter.unusedVariables false
set_option linter.unreachableTactic false
set_option linter.unusedTactic false

namespace DigitalRipples

/-- The four members of the `ACTIONS` table of `sketch.js`.  Only the
identity of each member matters to the modelled core (the quadrant/label
payload is presentation data used by excluded UI code). -/
inductive ActionType where
  | LIKE
  | DISLIKE
  | POSITIVE_COMMENT
  | NEGATIVE_COMMENT
deriving DecidableEq, Inhabited

/-- A JS value arriving where an action is expected: one of the four
`ACTIONS` objects, or any other value, carried together with the string
it converts to when used as a property key. -/
inductive JSAction where
  | known : ActionType → JSAction
  | other : String → JSAction
deriving DecidableEq, Inhabited

/-- JS property-key conversion of an action value.  Every plain JS object
(each of the four `ACTIONS` members is one) stringifies to
"[object Object]"; an `other` value carries its own key string. -/
def JSAction.toKey : JSAction → String
  | .known _ => "[object Object]"
  | .other s => s

/-- p5 `map(n, start1, stop1, start2, stop2)` without the clamping flag:
`(n - start1) / (stop1 - start1) * (stop2 - start2) + start2`. -/
def p5map (n start1 stop1 start2 stop2 : ℚ) : ℚ :=
  (n - start1) / (stop1 - start1) * (stop2 - start2) + start2

/-- p5 `random(lo, hi)` applied to one unit sample `u ∈ [0,1)` of the
underlying generator: `lo + u * (hi - lo)`. -/
def p5random (u lo hi : ℚ) : ℚ := lo + u * (hi - lo)

/-! ## Action parameter table (`Ripple.getActionParams`) -/

/-- The per-action parameter record returned by `Ripple.getActionParams`. -/
structure ActionParams where
  maxRadius : ℚ
  amplitude : ℚ
  damping : ℚ
  speed : ℚ
  lifespan : ℚ
  color : ℚ × ℚ × ℚ × ℚ
deriving DecidableEq, Inhabited

/-- `Ripple.getActionParams` on the four `ACTIONS` members (the four
`case` arms of the `switch`). -/
def getActionParams : ActionType → ActionParams
  | .LIKE =>
      { maxRadius := 400, amplitude := 1, damping := 95/100, speed := 35/10,
        lifespan := 3000, color := (100, 200, 255, 180) }
  | .DISLIKE =>
      { maxRadius := 350, amplitude := 8/10, damping := 92/100, speed := 2,
        lifespan := 4000, color := (150, 100, 150, 160) }
  | .POSITIVE_COMMENT =>
      { maxRadius := 300, amplitude := 6/10, damping := 98/100, speed := 4,
        lifespan := 2500, color := (255, 220, 100, 140) }
  | .NEGATIVE_COMMENT =>
      { maxRadius := 250, amplitude := 4/10, damping := 99/100, speed := 25/10,
        lifespan := 3500, color := (50, 50, 80, 120) }

/-- `Ripple.getActionParams` on an arbitrary JS value: the `switch` has no
default arm, so any value that is not one of the four `ACTIONS` members
falls through and the function returns `undefined` (`none`). -/
def getActionParamsJS : JSAction → Option ActionParams
  | .known k => some (getActionParams k)
  | .other _ => none

/-! ## MicroRipples -/

/-- One entry of `this.microRipples`.  The source stores the point
`(x + cos(angle)·dist, y + sin(angle)·dist)`; we store the underlying
uniform samples (`angleSample` is the unit sample of `random(TWO_PI)`,
so the angle is `angleSample * 2π`) and expose the stored coordinates as
the derived functions `MicroRipple.xPos` / `MicroRipple.yPos`, since
real-valued trigonometry is noncomputable in Lean. -/
structure MicroRipple where
  angleSample : ℚ
  dist : ℚ
  startTime : ℚ
  radius : ℚ
deriving DecidableEq, Inhabited

/-- The stored x coordinate of a micro ripple: `parent.x + cos(angle) * dist`. -/
noncomputable def MicroRipple.xPos (parentX : ℚ) (m : MicroRipple) : ℝ :=
  (parentX : ℝ) + Real.cos ((m.angleSample : ℝ) * (2 * Real.pi)) * (m.dist : ℝ)

/-- The stored y coordinate of a micro ripple: `parent.y + sin(angle) * dist`. -/
noncomputable def MicroRipple.yPos (parentY : ℚ) (m : MicroRipple) : ℝ :=
  (parentY : ℝ) + Real.sin ((m.angleSample : ℝ) * (2 * Real.pi)) * (m.dist : ℝ)

/-- `Ripple.generateMicroRipples`: fifteen records, the i-th consuming the
four generator samples `rng (4i) .. rng (4i+3)` for
`random(TWO_PI)`, `random(20, 80)`, `random(-100, 100)` and
`random(30, 60)` in source order.  `rng` is the stream of unit samples of
p5's generator, each in `[0,1)`. -/
def generateMicroRipples (startTime : ℚ) (rng : ℕ → ℚ) : List MicroRipple :=
  (List.range 15).map fun i =>
    { angleSample := rng (4 * i),
      dist := p5random (rng (4 * i + 1)) 20 80,
      startTime := startTime + p5random (rng (4 * i + 2)) (-100) 100,
      radius := p5random (rng (4 * i + 3)) 30 60 }

/-! ## Ripple -/

/-- The `Ripple` object.  `rid` models JS reference identity (every `new
Ripple(...)` yields a fresh reference; the `draw` loop and `shouldDamp`
compare ripples with `===`): distinct constructions carry distinct `rid`s. -/
structure Ripple where
  rid : ℕ
  x : ℚ
  y : ℚ
  actionType : ActionType
  startTime : ℚ
  age : ℚ
  maxRadius : ℚ
  amplitude : ℚ
  damping : ℚ
  speed : ℚ
  lifespan : ℚ
  color : ℚ × ℚ × ℚ × ℚ
  microRipples : List MicroRipple
deriving DecidableEq, Inhabited

/-- The `Ripple` constructor: copies the matching parameter record, sets
`age = 0`, and generates the micro ripples exactly when the action is
`POSITIVE_COMMENT`. -/
def mkRipple (rid : ℕ) (x y : ℚ) (actionType : ActionType) (startTime : ℚ)
    (rng : ℕ → ℚ) : Ripple :=
  let params := getActionParams actionType
  { rid := rid, x := x, y := y, actionType := actionType, startTime := startTime,
    age := 0,
    maxRadius := params.maxRadius, amplitude := params.amplitude,
    damping := params.damping, speed := params.speed, lifespan := params.lifespan,
    color := params.color,
    microRipples :=
      if actionType = ActionType.POSITIVE_COMMENT
      then generateMicroRipples startTime rng else [] }

/-- `Ripple.update(currentTime)`: sets `age = currentTime - startTime` and
returns `age < lifespan`. -/
def Ripple.update (r : Ripple) (currentTime : ℚ) : Ripple × Bool :=
  let r' := { r with age := currentTime - r.startTime }
  (r', decide (r'.age < r'.lifespan))

/-- The mutated ripple after `update(now)` (its return value discarded). -/
def advanceAge (now : ℚ) (r : Ripple) : Ripple := (r.update now).1

/-- A ripple as it stands at a given age: the result of `update` at
`startTime + a`. -/
def Ripple.atAge (r : Ripple) (a : ℚ) : Ripple := (r.update (r.startTime + a)).1

/-- `Ripple.getCurrentRadius`: `min(progress * speed * 50, maxRadius)`
with `progress = age / lifespan`. -/
def Ripple.getCurrentRadius (r : Ripple) : ℚ :=
  let progress := r.age / r.lifespan
  min (progress * r.speed * 50) r.maxRadius

/-- `Ripple.getCurrentAmplitude`:
`amplitude * damping ^ (radius / 10)`, times the drooping factor
`(1 - sin(progress * π * 2) * 0.1)` for `DISLIKE` only, times the fade
factor `(1 - progress * 0.7)`. -/
noncomputable def Ripple.getCurrentAmplitude (r : Ripple) : ℝ :=
  let progress : ℝ := ((r.age / r.lifespan : ℚ) : ℝ)
  let radius : ℝ := ((r.getCurrentRadius : ℚ) : ℝ)
  let amp : ℝ := (r.amplitude : ℝ) * (r.damping : ℝ) ^ (radius / 10)
  let amp : ℝ :=
    if r.actionType = ActionType.DISLIKE
    then amp * (1 - Real.sin (progress * Real.pi * 2) * (1/10))
    else amp
  amp * (1 - progress * (7/10))

/-- `Ripple.shouldDamp(otherRipple, currentTime)`.  The source compares
`Math.sqrt(dx² + dy²) < 1.5 * getCurrentRadius()`; with the left side
nonnegative this is equivalent to the square-free test
`0 < R ∧ dx² + dy² < R²` used here (see `sqrt_lt_iff_sq_lt`), which keeps
the definition executable.  `otherRipple === this` is `rid` equality;
`currentTime` is accepted and ignored, as in the source. -/
def Ripple.shouldDamp (r : Ripple) (otherRipple : Ripple) (currentTime : ℚ) : Bool :=
  if r.actionType ≠ ActionType.NEGATIVE_COMMENT then false
  else if otherRipple.rid = r.rid then false
  else
    let dx := r.x - otherRipple.x
    let dy := r.y - otherRipple.y
    let absorptionRadius := r.getCurrentRadius * (15/10)
    decide (0 < absorptionRadius ∧ dx * dx + dy * dy < absorptionRadius * absorptionRadius)

/-! ## The per-frame ripple pass of `draw`

`ripples = ripples.filter(...)` updates each ripple in order, drops the
expired ones, and renders each survivor, damped exactly when some element
of the array the loop iterates (`ripples` still names the pre-filter
array, whose earlier elements have already been mutated by `update`)
satisfies `shouldDamp` against it.  The temporary `amplitude *= 0.3` is
restored before the callback returns, so the output records the survivor
together with the damped flag of its one rendering. -/

/-- One pass of the filter callback over the remaining elements `rest`,
where `done` holds the already-updated earlier elements of the array: the
element is aged (`update`), kept only while `age < lifespan`, and its
damping flag is taken over the whole array as it stands (earlier elements
already aged, later ones not yet). -/
def tickAux (now : ℚ) (done : List Ripple) : List Ripple → List (Ripple × Bool)
  | [] => []
  | r :: rest =>
    (if (advanceAge now r).age < (advanceAge now r).lifespan
     then [(advanceAge now r,
            (done ++ advanceAge now r :: rest).any fun o =>
              o.shouldDamp (advanceAge now r) now)]
     else [])
      ++ tickAux now (done ++ [advanceAge now r]) rest

/-- The whole per-frame ripple pass: updates, drops, and flags. -/
def rippleTick (now : ℚ) (rs : List Ripple) : List (Ripple × Bool) :=
  tickAux now [] rs

/-- The array as the damping check of element `i` sees it: elements up to
and including `i` already advanced to `now`, later elements still at their
stored ages. -/
def mixedArr (now : ℚ) (rs : List Ripple) (i : ℕ) : List Ripple :=
  (rs.take (i + 1)).map (advanceAge now) ++ rs.drop (i + 1)

/-- Declarative description of the ripple pass: element `i`, once
advanced, survives iff still within its lifespan, and is flagged damped
iff some element of `mixedArr now rs i` satisfies `shouldDamp` against it. -/
def declTick (now : ℚ) (rs : List Ripple) : List (Ripple × Bool) :=
  (List.range rs.length).filterMap fun i =>
    if (advanceAge now (rs.getD i default)).age <
        (advanceAge now (rs.getD i default)).lifespan
    then some (advanceAge now (rs.getD i default),
               (mixedArr now rs i).any fun o =>
                 o.shouldDamp (advanceAge now (rs.getD i default)) now)
    else none

/-! ## ActivityManager -/

/-- The states of the activity state machine (`STATE`). -/
inductive SMState where
  | CALM
  | ACTIVE
  | OVERLOAD
  | RECOVER
deriving DecidableEq, Inhabited

/-- The mutable fields of `ActivityManager`. -/
structure AMState where
  meter : ℚ
  state : SMState
  overloadStartTime : ℚ
  recoverStartTime : ℚ
  blackoutAlpha : ℚ
deriving DecidableEq, Inhabited

/-- `this.overloadThreshold = 1.0`. -/
def overloadThreshold : ℚ := 1

/-- `this.decayRate = 0.001`. -/
def decayRate : ℚ := 1/1000

/-- The `ActivityManager` constructor state. -/
def initAM : AMState :=
  { meter := 0, state := .CALM, overloadStartTime := 0, recoverStartTime := 0,
    blackoutAlpha := 0 }

/-- `this.weights`: a JS object literal with computed keys.  Each key is
one of the `ACTIONS` objects converted to a property key, and a later
entry with the same key overwrites an earlier one, exactly as in a JS
object literal. -/
def jsSet (m : List (String × ℚ)) (k : String) (v : ℚ) : List (String × ℚ) :=
  (m.filter fun p => p.1 ≠ k) ++ [(k, v)]

/-- JS property read: the value stored at a key, if any. -/
def jsGet (m : List (String × ℚ)) (k : String) : Option ℚ :=
  (m.find? fun p => p.1 = k).map Prod.snd

/-- JS `a || b` on an optional numeric read: `undefined` and `0` are
falsy and yield the default. -/
def jsOrDefault (v : Option ℚ) (dflt : ℚ) : ℚ :=
  match v with
  | none => dflt
  | some x => if x = 0 then dflt else x

/-- The `weights` table as built by the constructor. -/
def weightsMap : List (String × ℚ) :=
  jsSet (jsSet (jsSet (jsSet [] (JSAction.known .LIKE).toKey (15/100))
    (JSAction.known .DISLIKE).toKey (18/100))
    (JSAction.known .POSITIVE_COMMENT).toKey (20/100))
    (JSAction.known .NEGATIVE_COMMENT).toKey (12/100)

/-- `this.weights[actionType] || 0.15`. -/
def lookupWeight (a : JSAction) : ℚ :=
  jsOrDefault (jsGet weightsMap a.toKey) (15/100)

/-- `ActivityManager.addActivity(actionType)`.  `now` is the value
`millis()` would return inside `triggerOverload`. -/
def addActivity (a : JSAction) (now : ℚ) (s : AMState) : AMState :=
  if s.state = SMState.OVERLOAD then s
  else
    let weight := lookupWeight a
    let m := min (s.meter + weight) (3/2)
    let st := if 3/10 < m ∧ s.state = SMState.CALM then SMState.ACTIVE else s.state
    if overloadThreshold ≤ m ∧ st ≠ SMState.OVERLOAD then
      { s with meter := m, state := SMState.OVERLOAD, overloadStartTime := now,
               blackoutAlpha := 0 }
    else
      { s with meter := m, state := st }

/-- The first block of `ActivityManager.update()`: per-tick decay and the
ACTIVE→CALM check, run only in `CALM` or `ACTIVE`. -/
def decayStep (s : AMState) : AMState :=
  if s.state = SMState.CALM ∨ s.state = SMState.ACTIVE then
    { s with meter := max 0 (s.meter - decayRate),
             state := if max 0 (s.meter - decayRate) < 1/5 ∧ s.state = SMState.ACTIVE
                      then SMState.CALM else s.state }
  else s

/-- The second block of `ActivityManager.update()`: blackout fade-in and
the OVERLOAD→RECOVER check after 7000 ms. -/
def overloadStep (s : AMState) (now : ℚ) : AMState :=
  if s.state = SMState.OVERLOAD then
    let elapsed := now - s.overloadStartTime
    let s1 := { s with blackoutAlpha :=
                  if elapsed < 2000 then p5map elapsed 0 2000 0 255 else 255 }
    if 7000 < elapsed then
      { s1 with state := SMState.RECOVER, recoverStartTime := now }
    else s1
  else s

/-- The third block of `ActivityManager.update()`: fade back over 3000 ms,
then the RECOVER→CALM reset. -/
def recoverStep (s : AMState) (now : ℚ) : AMState :=
  if s.state = SMState.RECOVER then
    let elapsed := now - s.recoverStartTime
    if elapsed < 3000 then { s with blackoutAlpha := p5map elapsed 0 3000 255 0 }
    else { s with blackoutAlpha := 0, meter := 3/10, state := SMState.CALM }
  else s

/-- `ActivityManager.update()` at clock value `now` (= `millis()`): the
three blocks run in sequence on the mutated state, so entering `RECOVER`
makes the recover block run in the same call, as in the source. -/
def AMState.update (s : AMState) (now : ℚ) : AMState :=
  recoverStep (overloadStep (decayStep s) now) now

/-- A burst of `addActivity` calls, all at clock value `now`, from the
constructor state. -/
def runAdds (acts : List JSAction) (now : ℚ) : AMState :=
  acts.foldl (fun s a => addActivity a now s) initAM

/-- One externally triggered event: an `addActivity` call or one
`activityManager.update()` tick, each with the clock value at which it
runs. -/
inductive Ev where
  | add : JSAction → ℚ → Ev
  | tick : ℚ → Ev
deriving DecidableEq, Inhabited

/-- Apply one event to the activity state. -/
def evStep (s : AMState) (e : Ev) : AMState :=
  match e with
  | .add a t => addActivity a t s
  | .tick t => s.update t

/-- Run an arbitrary interleaving of events from the constructor state. -/
def runEvents (evs : List Ev) : AMState :=
  evs.foldl evStep initAM

/-! ## Helper lemmas: the weights table -/

/-- All four `ACTIONS` members stringify to the same property key, so every
lookup in the collapsed `weights` table returns the last-written entry,
`0.12`. -/
lemma lookupWeight_known (a : ActionType) : lookupWeight (.known a) = 12/100 := by
  simp +decide [lookupWeight, jsOrDefault, jsGet, weightsMap, jsSet, JSAction.toKey]

/-- An unknown key misses the collapsed table and `|| 0.15` supplies the
default. -/
lemma lookupWeight_other (s : String) (hs : s ≠ "[object Object]") :
    lookupWeight (.other s) = 15/100 := by
  have hne : ("[object Object]" : String) ≠ s := fun h => hs (Eq.symm h)
  have hfind : (weightsMap.find? fun p => p.1 = s) = none := by
    simp +decide [weightsMap, jsSet, List.find?, JSAction.toKey, hne]
  simp [lookupWeight, jsOrDefault, jsGet, JSAction.toKey, hfind]

/-- Every weight the lookup can return is positive. -/
lemma lookupWeight_pos (a : JSAction) : 0 < lookupWeight a := by
  cases a with
  | known k => rw [lookupWeight_known]; norm_num
  | other s =>
    by_cases hs : s = "[object Object]"
    · subst hs
      simp +decide [lookupWeight, jsOrDefault, jsGet, weightsMap, jsSet, JSAction.toKey]
    · rw [lookupWeight_other s hs]; norm_num

/-! ## Helper lemmas: addActivity -/

/-- During `OVERLOAD`, `addActivity` returns at once. -/
lemma addActivity_overload_noop (a : JSAction) (now : ℚ) (s : AMState)
    (h : s.state = SMState.OVERLOAD) : addActivity a now s = s := by
  rw [addActivity, if_pos h]

/-- Outside `OVERLOAD`, the meter after `addActivity` is
`min(meter + weight, 1.5)` whichever branch is taken. -/
lemma addActivity_meter (a : JSAction) (now : ℚ) (s : AMState)
    (h : s.state ≠ SMState.OVERLOAD) :
    (addActivity a now s).meter = min (s.meter + lookupWeight a) (3/2) := by
  rw [addActivity, if_neg h]
  simp only []
  split_ifs <;> rfl

/-- `addActivity` keeps the meter in `[0, 1.5]`. -/
lemma addActivity_meter_bounds (a : JSAction) (now : ℚ) (s : AMState)
    (h0 : 0 ≤ s.meter) (h1 : s.meter ≤ 3/2) :
    0 ≤ (addActivity a now s).meter ∧ (addActivity a now s).meter ≤ 3/2 := by
  have hw := lookupWeight_pos a
  by_cases ho : s.state = SMState.OVERLOAD
  · rw [addActivity_overload_noop a now s ho]
    exact ⟨h0, h1⟩
  · rw [addActivity_meter a now s ho]
    exact ⟨le_min (by linarith) (by norm_num), min_le_right _ _⟩

/-! ## Helper lemmas: the three blocks of update -/

lemma decayStep_overload (s : AMState) (h : s.state = SMState.OVERLOAD) :
    decayStep s = s := by
  rw [decayStep, if_neg]
  simp [h]

lemma decayStep_recover (s : AMState) (h : s.state = SMState.RECOVER) :
    decayStep s = s := by
  rw [decayStep, if_neg]
  simp [h]

lemma decayStep_state (s : AMState) :
    (decayStep s).state = s.state ∨ (decayStep s).state = SMState.CALM := by
  rw [decayStep]
  split_ifs <;> simp

lemma overloadStep_not (s : AMState) (now : ℚ) (h : s.state ≠ SMState.OVERLOAD) :
    overloadStep s now = s := by
  rw [overloadStep, if_neg h]

lemma overloadStep_stay (s : AMState) (now : ℚ) (h : s.state = SMState.OVERLOAD)
    (h7 : now - s.overloadStartTime ≤ 7000) :
    overloadStep s now =
      { s with blackoutAlpha :=
          if now - s.overloadStartTime < 2000
          then p5map (now - s.overloadStartTime) 0 2000 0 255 else 255 } := by
  rw [overloadStep, if_pos h]
  simp only []
  rw [if_neg (by linarith : ¬ 7000 < now - s.overloadStartTime)]

lemma overloadStep_to_recover (s : AMState) (now : ℚ) (h : s.state = SMState.OVERLOAD)
    (h7 : 7000 < now - s.overloadStartTime) :
    overloadStep s now =
      { s with blackoutAlpha := 255, state := SMState.RECOVER,
               recoverStartTime := now } := by
  rw [overloadStep, if_pos h]
  simp only []
  rw [if_neg (by linarith : ¬ now - s.overloadStartTime < 2000), if_pos h7]

lemma recoverStep_not (s : AMState) (now : ℚ) (h : s.state ≠ SMState.RECOVER) :
    recoverStep s now = s := by
  rw [recoverStep, if_neg h]

lemma recoverStep_stay (s : AMState) (now : ℚ) (h : s.state = SMState.RECOVER)
    (h3 : now - s.recoverStartTime < 3000) :
    recoverStep s now =
      { s with blackoutAlpha := p5map (now - s.recoverStartTime) 0 3000 255 0 } := by
  rw [recoverStep, if_pos h]
  simp only []
  rw [if_pos h3]

lemma recoverStep_to_calm (s : AMState) (now : ℚ) (h : s.state = SMState.RECOVER)
    (h3 : 3000 ≤ now - s.recoverStartTime) :
    recoverStep s now =
      { s with blackoutAlpha := 0, meter := 3/10, state := SMState.CALM } := by
  rw [recoverStep, if_pos h]
  simp only []
  rw [if_neg (by linarith : ¬ now - s.recoverStartTime < 3000)]

/-! ## Helper lemmas: update by state -/

lemma update_calm_or_active (s : AMState) (now : ℚ)
    (h : s.state = SMState.CALM ∨ s.state = SMState.ACTIVE) :
    s.update now = decayStep s := by
  have hst := decayStep_state s
  rw [AMState.update, overloadStep_not _ now, recoverStep_not _ now]
  · rcases hst with h2 | h2 <;> rcases h with h3 | h3 <;> simp [h2, h3]
  · rcases hst with h2 | h2 <;> rcases h with h3 | h3 <;> simp [h2, h3]

lemma update_overload_stay (s : AMState) (now : ℚ)
    (h : s.state = SMState.OVERLOAD) (h7 : now - s.overloadStartTime ≤ 7000) :
    s.update now =
      { s with blackoutAlpha :=
          if now - s.overloadStartTime < 2000
          then p5map (now - s.overloadStartTime) 0 2000 0 255 else 255 } := by
  rw [AMState.update, decayStep_overload s h, overloadStep_stay s now h h7,
    recoverStep_not]
  simp [h]

lemma update_overload_to_recover (s : AMState) (now : ℚ)
    (h : s.state = SMState.OVERLOAD) (h7 : 7000 < now - s.overloadStartTime) :
    s.update now =
      { s with blackoutAlpha := 255, state := SMState.RECOVER,
               recoverStartTime := now } := by
  rw [AMState.update, decayStep_overload s h, overloadStep_to_recover s now h h7,
    recoverStep_stay _ now rfl (by simp)]
  norm_num [p5map]

lemma update_recover_stay (s : AMState) (now : ℚ)
    (h : s.state = SMState.RECOVER) (h3 : now - s.recoverStartTime < 3000) :
    s.update now =
      { s with blackoutAlpha := p5map (now - s.recoverStartTime) 0 3000 255 0 } := by
  rw [AMState.update, decayStep_recover s h, overloadStep_not _ now (by simp [h]),
    recoverStep_stay s now h h3]

lemma update_recover_to_calm (s : AMState) (now : ℚ)
    (h : s.state = SMState.RECOVER) (h3 : 3000 ≤ now - s.recoverStartTime) :
    s.update now =
      { s with blackoutAlpha := 0, meter := 3/10, state := SMState.CALM } := by
  rw [AMState.update, decayStep_recover s h, overloadStep_not _ now (by simp [h]),
    recoverStep_to_calm s now h h3]

lemma decayStep_meter_bounds (s : AMState)
    (h0 : 0 ≤ s.meter) (h1 : s.meter ≤ 3/2) :
    0 ≤ (decayStep s).meter ∧ (decayStep s).meter ≤ 3/2 := by
  rw [decayStep]
  by_cases h : s.state = SMState.CALM ∨ s.state = SMState.ACTIVE
  · rw [if_pos h]
    exact ⟨le_max_left _ _, max_le (by norm_num) (by rw [decayRate]; linarith)⟩
  · rw [if_neg h]
    exact ⟨h0, h1⟩

/-- `ActivityManager.update` keeps the meter in `[0, 1.5]`. -/
lemma update_meter_bounds (now : ℚ) (s : AMState)
    (h0 : 0 ≤ s.meter) (h1 : s.meter ≤ 3/2) :
    0 ≤ (s.update now).meter ∧ (s.update now).meter ≤ 3/2 := by
  cases hst : s.state with
  | CALM =>
    rw [update_calm_or_active s now (Or.inl hst)]
    exact decayStep_meter_bounds s h0 h1
  | ACTIVE =>
    rw [update_calm_or_active s now (Or.inr hst)]
    exact decayStep_meter_bounds s h0 h1
  | OVERLOAD =>
    by_cases h7 : 7000 < now - s.overloadStartTime
    · rw [update_overload_to_recover s now hst h7]
      exact ⟨h0, h1⟩
    · rw [update_overload_stay s now hst (by linarith)]
      exact ⟨h0, h1⟩
  | RECOVER =>
    by_cases h3 : now - s.recoverStartTime < 3000
    · rw [update_recover_stay s now hst h3]
      exact ⟨h0, h1⟩
    · rw [update_recover_to_calm s now hst (by linarith)]
      norm_num


/-! ## Helper lemmas: the overload-entry invariant -/

/-- Invariant for a burst of `addActivity` calls at clock `now`: a meter at
or past the threshold can only have been produced by `triggerOverload`,
which records `overloadStartTime` and clears `blackoutAlpha`. -/
def overInv (now : ℚ) (s : AMState) : Prop :=
  1 ≤ s.meter →
    s.state = SMState.OVERLOAD ∧ s.overloadStartTime = now ∧ s.blackoutAlpha = 0

lemma addActivity_overInv (a : JSAction) (now : ℚ) (s : AMState)
    (h : overInv now s) : overInv now (addActivity a now s) := by
  by_cases ho : s.state = SMState.OVERLOAD
  · rw [addActivity_overload_noop a now s ho]
    exact h
  · rw [addActivity, if_neg ho]
    simp only []
    have hst : (if 3/10 < min (s.meter + lookupWeight a) (3/2) ∧ s.state = SMState.CALM
        then SMState.ACTIVE else s.state) ≠ SMState.OVERLOAD := by
      split_ifs with hc
      · simp
      · exact ho
    by_cases h1 : (1 : ℚ) ≤ min (s.meter + lookupWeight a) (3/2)
    · rw [if_pos ⟨by rwa [overloadThreshold], hst⟩]
      intro _
      exact ⟨rfl, rfl, rfl⟩
    · rw [if_neg fun hc => h1 (by rw [← overloadThreshold]; exact hc.1)]
      intro hm
      exact absurd hm h1

lemma runAdds_overInv (acts : List JSAction) (now : ℚ) :
    1 ≤ (runAdds acts now).meter →
    (runAdds acts now).state = SMState.OVERLOAD ∧
    (runAdds acts now).overloadStartTime = now ∧
    (runAdds acts now).blackoutAlpha = 0 := by
  have h : ∀ (l : List JSAction) (s : AMState), overInv now s →
      overInv now (l.foldl (fun s a => addActivity a now s) s) := by
    intro l
    induction l with
    | nil => intro s hs; rw [List.foldl_nil]; exact hs
    | cons a rest ih =>
      intro s hs
      rw [List.foldl_cons]
      exact ih _ (addActivity_overInv a now s hs)
  exact h acts initAM (by intro hm; norm_num [initAM] at hm)

/-! ## Claim C1 -/

/-- C1: starting from the constructor state, any burst of `addActivity`
calls (all at clock `now`) whose final meter is at least 1.0 leaves the
machine in `OVERLOAD` with `overloadStartTime = now` and
`blackoutAlpha = 0`; an `update` tick strictly more than 7000 ms after
`overloadStartTime` moves `OVERLOAD` to `RECOVER` recording
`recoverStartTime` (a tick at most 7000 ms after stays in `OVERLOAD`);
and an `update` tick at least 3000 ms after `recoverStartTime` moves
`RECOVER` to `CALM` with `meter = 0.3` and `blackoutAlpha = 0` (an
earlier tick stays in `RECOVER`). -/
theorem blackout_cycle :
    (∀ (acts : List JSAction) (now : ℚ),
        1 ≤ (runAdds acts now).meter →
        (runAdds acts now).state = SMState.OVERLOAD ∧
        (runAdds acts now).overloadStartTime = now ∧
        (runAdds acts now).blackoutAlpha = 0) ∧
    (∀ (s : AMState) (now : ℚ), s.state = SMState.OVERLOAD →
        (7000 < now - s.overloadStartTime →
          (s.update now).state = SMState.RECOVER ∧
          (s.update now).recoverStartTime = now) ∧
        (now - s.overloadStartTime ≤ 7000 →
          (s.update now).state = SMState.OVERLOAD)) ∧
    (∀ (s : AMState) (now : ℚ), s.state = SMState.RECOVER →
        (3000 ≤ now - s.recoverStartTime →
          (s.update now).state = SMState.CALM ∧
          (s.update now).meter = 3/10 ∧
          (s.update now).blackoutAlpha = 0) ∧
        (now - s.recoverStartTime < 3000 →
          (s.update now).state = SMState.RECOVER)) := by
  refine ⟨runAdds_overInv, ?_, ?_⟩
  · intro s now h
    constructor
    · intro h7
      rw [update_overload_to_recover s now h h7]
      exact ⟨rfl, rfl⟩
    · intro h7
      rw [update_overload_stay s now h h7]
      exact h
  · intro s now h
    constructor
    · intro h3
      rw [update_recover_to_calm s now h h3]
      exact ⟨rfl, rfl, rfl⟩
    · intro h3
      rw [update_recover_stay s now h h3]
      exact h

lemma runAdds_seven_eval :
    runAdds (List.replicate 7 (JSAction.other "w")) 5 =
      ⟨21/20, SMState.OVERLOAD, 5, 0, 0⟩ := by
  have hw : lookupWeight (JSAction.other "w") = 15/100 :=
    lookupWeight_other "w" (by decide)
  have s1 : addActivity (JSAction.other "w") 5 initAM = ⟨3/20, .CALM, 0, 0, 0⟩ := by
    norm_num [addActivity, initAM, hw, overloadThreshold]
    first
      | decide
      | simp
  have s2 : addActivity (JSAction.other "w") 5 ⟨3/20, .CALM, 0, 0, 0⟩ =
      ⟨3/10, .CALM, 0, 0, 0⟩ := by
    norm_num [addActivity, hw, overloadThreshold]
    first
      | decide
      | simp
  have s3 : addActivity (JSAction.other "w") 5 ⟨3/10, .CALM, 0, 0, 0⟩ =
      ⟨9/20, .ACTIVE, 0, 0, 0⟩ := by
    norm_num [addActivity, hw, overloadThreshold]
    first
      | decide
      | simp
  have s4 : addActivity (JSAction.other "w") 5 ⟨9/20, .ACTIVE, 0, 0, 0⟩ =
      ⟨3/5, .ACTIVE, 0, 0, 0⟩ := by
    norm_num [addActivity, hw, overloadThreshold]
    first
      | decide
      | simp
  have s5 : addActivity (JSAction.other "w") 5 ⟨3/5, .ACTIVE, 0, 0, 0⟩ =
      ⟨3/4, .ACTIVE, 0, 0, 0⟩ := by
    norm_num [addActivity, hw, overloadThreshold]
    first
      | decide
      | simp
  have s6 : addActivity (JSAction.other "w") 5 ⟨3/4, .ACTIVE, 0, 0, 0⟩ =
      ⟨9/10, .ACTIVE, 0, 0, 0⟩ := by
    norm_num [addActivity, hw, overloadThreshold]
    first
      | decide
      | simp
  have s7 : addActivity (JSAction.other "w") 5 ⟨9/10, .ACTIVE, 0, 0, 0⟩ =
      ⟨21/20, .OVERLOAD, 5, 0, 0⟩ := by
    norm_num [addActivity, hw, overloadThreshold]
    first
      | decide
      | simp
  simp [runAdds, List.replicate, List.foldl, s1, s2, s3, s4, s5, s6, s7]

/-- C1 witness: seven events of weight 0.15 drive the meter to 1.05 and
the machine through the whole cycle at concrete clock values. -/
theorem blackout_cycle_witness :
    (1 ≤ (runAdds (List.replicate 7 (JSAction.other "w")) 5).meter ∧
      (runAdds (List.replicate 7 (JSAction.other "w")) 5).state = SMState.OVERLOAD ∧
      (runAdds (List.replicate 7 (JSAction.other "w")) 5).overloadStartTime = 5 ∧
      (runAdds (List.replicate 7 (JSAction.other "w")) 5).blackoutAlpha = 0) ∧
    ((⟨21/20, SMState.OVERLOAD, 5, 0, 255⟩ : AMState).state = SMState.OVERLOAD ∧
      7000 < (7006 : ℚ) - (⟨21/20, SMState.OVERLOAD, 5, 0, 255⟩ : AMState).overloadStartTime ∧
      ((⟨21/20, SMState.OVERLOAD, 5, 0, 255⟩ : AMState).update 7006).state = SMState.RECOVER ∧
      ((⟨21/20, SMState.OVERLOAD, 5, 0, 255⟩ : AMState).update 7006).recoverStartTime = 7006) ∧
    ((⟨21/20, SMState.RECOVER, 5, 7006, 255⟩ : AMState).state = SMState.RECOVER ∧
      3000 ≤ (10006 : ℚ) - (⟨21/20, SMState.RECOVER, 5, 7006, 255⟩ : AMState).recoverStartTime ∧
      ((⟨21/20, SMState.RECOVER, 5, 7006, 255⟩ : AMState).update 10006).state = SMState.CALM ∧
      ((⟨21/20, SMState.RECOVER, 5, 7006, 255⟩ : AMState).update 10006).meter = 3/10 ∧
      ((⟨21/20, SMState.RECOVER, 5, 7006, 255⟩ : AMState).update 10006).blackoutAlpha = 0) := by
  have hm : 1 ≤ (runAdds (List.replicate 7 (JSAction.other "w")) 5).meter := by
    rw [runAdds_seven_eval]
    norm_num
  have h2 := (blackout_cycle.2.1 ⟨21/20, SMState.OVERLOAD, 5, 0, 255⟩ 7006 rfl).1
    (by norm_num)
  have h3 := (blackout_cycle.2.2 ⟨21/20, SMState.RECOVER, 5, 7006, 255⟩ 10006 rfl).1
    (by norm_num)
  exact ⟨⟨hm, blackout_cycle.1 _ 5 hm⟩, ⟨rfl, by norm_num, h2⟩,
    ⟨rfl, by norm_num, h3.1, h3.2.1, h3.2.2⟩⟩

/-! ## Claim C2 -/

/-- C2: over every interleaving of `addActivity` calls and `update` ticks
from the constructor state the meter stays in `[0, 1.5]`, and an
`addActivity` call during `OVERLOAD` returns the state unchanged in every
field. -/
theorem meter_invariant_and_overload_atomicity :
    (∀ evs : List Ev, 0 ≤ (runEvents evs).meter ∧ (runEvents evs).meter ≤ 3/2) ∧
    (∀ (s : AMState) (a : JSAction) (now : ℚ),
        s.state = SMState.OVERLOAD → addActivity a now s = s) := by
  constructor
  · intro evs
    have h : ∀ (l : List Ev) (s : AMState), 0 ≤ s.meter → s.meter ≤ 3/2 →
        0 ≤ (l.foldl evStep s).meter ∧ (l.foldl evStep s).meter ≤ 3/2 := by
      intro l
      induction l with
      | nil => intro s h0 h1; rw [List.foldl_nil]; exact ⟨h0, h1⟩
      | cons e rest ih =>
        intro s h0 h1
        rw [List.foldl_cons]
        cases e with
        | add a t =>
          have hb := addActivity_meter_bounds a t s h0 h1
          exact ih _ hb.1 hb.2
        | tick t =>
          have hb := update_meter_bounds t s h0 h1
          exact ih _ hb.1 hb.2
    exact h evs initAM (by norm_num [initAM]) (by norm_num [initAM])
  · exact fun s a now h => addActivity_overload_noop a now s h

/-- C2 witness: `addActivity` during a concrete `OVERLOAD` state is the
identity. -/
theorem meter_invariant_witness :
    (⟨1, SMState.OVERLOAD, 2, 3, 255⟩ : AMState).state = SMState.OVERLOAD ∧
    addActivity (JSAction.known ActionType.DISLIKE) 42
        ⟨1, SMState.OVERLOAD, 2, 3, 255⟩ = ⟨1, SMState.OVERLOAD, 2, 3, 255⟩ :=
  ⟨rfl, meter_invariant_and_overload_atomicity.2 _ _ _ rfl⟩

/-! ## Claim C3 -/

/-- C3 (evaluation at the failing input): four `addActivity` calls with
the `POSITIVE_COMMENT` action from the constructor state leave the state
`ACTIVE` but the meter at `0.48`, not the claimed `0.80`: the lookup
returns the collapsed weight `0.12` on every call, not the written
`0.20`. -/
theorem four_positive_adds_eval :
    (runAdds (List.replicate 4 (JSAction.known ActionType.POSITIVE_COMMENT)) 0).meter
        = 12/25 ∧
    (runAdds (List.replicate 4 (JSAction.known ActionType.POSITIVE_COMMENT)) 0).state
        = SMState.ACTIVE := by
  have s1 : addActivity (JSAction.known .POSITIVE_COMMENT) 0 initAM =
      ⟨3/25, .CALM, 0, 0, 0⟩ := by
    norm_num [addActivity, initAM, lookupWeight_known, overloadThreshold]
    first
      | decide
      | simp
  have s2 : addActivity (JSAction.known .POSITIVE_COMMENT) 0 ⟨3/25, .CALM, 0, 0, 0⟩ =
      ⟨6/25, .CALM, 0, 0, 0⟩ := by
    norm_num [addActivity, lookupWeight_known, overloadThreshold]
    first
      | decide
      | simp
  have s3 : addActivity (JSAction.known .POSITIVE_COMMENT) 0 ⟨6/25, .CALM, 0, 0, 0⟩ =
      ⟨9/25, .ACTIVE, 0, 0, 0⟩ := by
    norm_num [addActivity, lookupWeight_known, overloadThreshold]
    first
      | decide
      | simp
  have s4 : addActivity (JSAction.known .POSITIVE_COMMENT) 0 ⟨9/25, .ACTIVE, 0, 0, 0⟩ =
      ⟨12/25, .ACTIVE, 0, 0, 0⟩ := by
    norm_num [addActivity, lookupWeight_known, overloadThreshold]
    first
      | decide
      | simp
  simp [runAdds, List.replicate, List.foldl, s1, s2, s3, s4]

/-! ## Claim C4 -/

/-- C4: outside `OVERLOAD`, `addActivity` raises the meter by the same
constant `0.12` whichever of the four action kinds is passed — the
object-valued computed keys of the `weights` literal all stringify to
"[object Object]", so the last-written entry (0.12) overwrites the others
and every kind lookup returns it, making the result independent of the
kind. -/
theorem weight_independent_of_kind (s : AMState) (now : ℚ) (a : ActionType)
    (h : s.state ≠ SMState.OVERLOAD) :
    lookupWeight (.known a) = 12/100 ∧
    (addActivity (.known a) now s).meter = min (s.meter + 12/100) (3/2) ∧
    ∀ b : ActionType, addActivity (.known a) now s = addActivity (.known b) now s := by
  refine ⟨lookupWeight_known a, ?_, ?_⟩
  · rw [addActivity_meter _ _ _ h, lookupWeight_known]
  · intro b
    simp only [addActivity, lookupWeight_known]

/-- C4 witness at the constructor state with the `LIKE` kind. -/
theorem weight_independent_witness :
    initAM.state ≠ SMState.OVERLOAD ∧
    (addActivity (.known ActionType.LIKE) 3 initAM).meter =
      min (initAM.meter + 12/100) (3/2) :=
  ⟨by decide, (weight_independent_of_kind initAM 3 ActionType.LIKE (by decide)).2.1⟩

/-! ## Claim C5 -/

/-- C5 counterexample: `addActivity` with the unrecognized action value
"bogus" is not rejected — it changes the meter of the constructor state
from 0 to 0.15 (the silent `|| 0.15` default). -/
theorem unknown_kind_not_rejected_cex :
    initAM.meter = 0 ∧
    (addActivity (JSAction.other "bogus") 0 initAM).meter = 3/20 ∧
    (3/20 : ℚ) ≠ 0 := by
  refine ⟨rfl, ?_, by norm_num⟩
  rw [addActivity_meter _ _ _ (by decide), lookupWeight_other "bogus" (by decide)]
  norm_num [initAM]

/-- C5 amended: an unrecognized kind is not rejected at the input
boundary.  Profile lookup falls through the `switch` and yields no
profile, but `addActivity` silently falls back to a default weight —
0.15 when the value's property key misses the collapsed `weights` table,
and the collapsed entry 0.12 when the key is "[object Object]" — and
raises the meter accordingly. -/
theorem unknown_kind_amended (s : AMState) (now : ℚ) (k : String)
    (h : s.state ≠ SMState.OVERLOAD) :
    getActionParamsJS (.other k) = none ∧
    (k ≠ "[object Object]" →
      (addActivity (.other k) now s).meter = min (s.meter + 15/100) (3/2)) ∧
    (k = "[object Object]" →
      (addActivity (.other k) now s).meter = min (s.meter + 12/100) (3/2)) := by
  refine ⟨rfl, ?_, ?_⟩
  · intro hk
    rw [addActivity_meter _ _ _ h, lookupWeight_other k hk]
  · intro hk
    subst hk
    rw [addActivity_meter _ _ _ h]
    have hlw : lookupWeight (.other "[object Object]") = 12/100 := by
      simp +decide [lookupWeight, jsOrDefault, jsGet, weightsMap, jsSet, JSAction.toKey]
    rw [hlw]

/-- C5 amended witness at the constructor state with an unknown key. -/
theorem unknown_kind_amended_witness :
    initAM.state ≠ SMState.OVERLOAD ∧ ("zzz" : String) ≠ "[object Object]" ∧
    (addActivity (JSAction.other "zzz") 9 initAM).meter =
      min (initAM.meter + 15/100) (3/2) :=
  ⟨by decide, by decide, (unknown_kind_amended initAM 9 "zzz" (by decide)).2.1 (by decide)⟩


/-! ## Helper lemmas: ripple fields -/

@[simp] lemma mkRipple_rid (rid : ℕ) (x y : ℚ) (k : ActionType) (t0 : ℚ)
    (rng : ℕ → ℚ) : (mkRipple rid x y k t0 rng).rid = rid := rfl

@[simp] lemma mkRipple_x (rid : ℕ) (x y : ℚ) (k : ActionType) (t0 : ℚ)
    (rng : ℕ → ℚ) : (mkRipple rid x y k t0 rng).x = x := rfl

@[simp] lemma mkRipple_y (rid : ℕ) (x y : ℚ) (k : ActionType) (t0 : ℚ)
    (rng : ℕ → ℚ) : (mkRipple rid x y k t0 rng).y = y := rfl

@[simp] lemma mkRipple_actionType (rid : ℕ) (x y : ℚ) (k : ActionType) (t0 : ℚ)
    (rng : ℕ → ℚ) : (mkRipple rid x y k t0 rng).actionType = k := rfl

@[simp] lemma mkRipple_startTime (rid : ℕ) (x y : ℚ) (k : ActionType) (t0 : ℚ)
    (rng : ℕ → ℚ) : (mkRipple rid x y k t0 rng).startTime = t0 := rfl

@[simp] lemma mkRipple_amplitude (rid : ℕ) (x y : ℚ) (k : ActionType) (t0 : ℚ)
    (rng : ℕ → ℚ) :
    (mkRipple rid x y k t0 rng).amplitude = (getActionParams k).amplitude := rfl

@[simp] lemma mkRipple_damping (rid : ℕ) (x y : ℚ) (k : ActionType) (t0 : ℚ)
    (rng : ℕ → ℚ) :
    (mkRipple rid x y k t0 rng).damping = (getActionParams k).damping := rfl

@[simp] lemma mkRipple_speed (rid : ℕ) (x y : ℚ) (k : ActionType) (t0 : ℚ)
    (rng : ℕ → ℚ) :
    (mkRipple rid x y k t0 rng).speed = (getActionParams k).speed := rfl

@[simp] lemma mkRipple_lifespan (rid : ℕ) (x y : ℚ) (k : ActionType) (t0 : ℚ)
    (rng : ℕ → ℚ) :
    (mkRipple rid x y k t0 rng).lifespan = (getActionParams k).lifespan := rfl

@[simp] lemma mkRipple_maxRadius (rid : ℕ) (x y : ℚ) (k : ActionType) (t0 : ℚ)
    (rng : ℕ → ℚ) :
    (mkRipple rid x y k t0 rng).maxRadius = (getActionParams k).maxRadius := rfl

@[simp] lemma atAge_age (r : Ripple) (a : ℚ) : (r.atAge a).age = a := by
  simp [Ripple.atAge, Ripple.update]

@[simp] lemma atAge_rid (r : Ripple) (a : ℚ) : (r.atAge a).rid = r.rid := rfl

@[simp] lemma atAge_x (r : Ripple) (a : ℚ) : (r.atAge a).x = r.x := rfl

@[simp] lemma atAge_y (r : Ripple) (a : ℚ) : (r.atAge a).y = r.y := rfl

@[simp] lemma atAge_actionType (r : Ripple) (a : ℚ) :
    (r.atAge a).actionType = r.actionType := rfl

@[simp] lemma atAge_amplitude (r : Ripple) (a : ℚ) :
    (r.atAge a).amplitude = r.amplitude := rfl

@[simp] lemma atAge_damping (r : Ripple) (a : ℚ) :
    (r.atAge a).damping = r.damping := rfl

@[simp] lemma atAge_speed (r : Ripple) (a : ℚ) : (r.atAge a).speed = r.speed := rfl

@[simp] lemma atAge_lifespan (r : Ripple) (a : ℚ) :
    (r.atAge a).lifespan = r.lifespan := rfl

@[simp] lemma atAge_maxRadius (r : Ripple) (a : ℚ) :
    (r.atAge a).maxRadius = r.maxRadius := rfl

lemma radius_atAge (r : Ripple) (a : ℚ) :
    (r.atAge a).getCurrentRadius = min (a / r.lifespan * r.speed * 50) r.maxRadius := by
  rw [Ripple.getCurrentRadius]
  simp

/-- The three positive parameters every profile provides, plus the damping
band `0 < damping ≤ 1`. -/
lemma getActionParams_pos (k : ActionType) :
    0 < (getActionParams k).speed ∧ 0 < (getActionParams k).lifespan ∧
    0 < (getActionParams k).maxRadius ∧ 0 < (getActionParams k).amplitude ∧
    0 < (getActionParams k).damping ∧ (getActionParams k).damping ≤ 1 := by
  cases k <;> norm_num [getActionParams]

/-- Radius is monotone in age for positive speed and lifespan. -/
lemma radius_mono (r : Ripple) (hsp : 0 < r.speed) (hls : 0 < r.lifespan)
    (a1 a2 : ℚ) (h : a1 ≤ a2) :
    (r.atAge a1).getCurrentRadius ≤ (r.atAge a2).getCurrentRadius := by
  rw [radius_atAge, radius_atAge]
  have hd : a1 / r.lifespan ≤ a2 / r.lifespan :=
    div_le_div_of_nonneg_right h hls.le
  exact min_le_min
    (by nlinarith) le_rfl

/-! ## Claim C8 -/

/-- C8: for every constructed ripple, `getCurrentRadius` is a
non-decreasing function of the age, and once it equals `maxRadius` it
stays exactly `maxRadius` at every later age; and `update(now)` returns
`false` exactly when `now - startTime ≥ lifespan`, never for a smaller
age. -/
theorem radius_monotone_and_advance (k : ActionType) (rid : ℕ) (x y t0 : ℚ)
    (rng : ℕ → ℚ) (a1 a2 : ℚ) (h : a1 ≤ a2) :
    ((mkRipple rid x y k t0 rng).atAge a1).getCurrentRadius ≤
      ((mkRipple rid x y k t0 rng).atAge a2).getCurrentRadius ∧
    (((mkRipple rid x y k t0 rng).atAge a1).getCurrentRadius =
        (mkRipple rid x y k t0 rng).maxRadius →
      ((mkRipple rid x y k t0 rng).atAge a2).getCurrentRadius =
        (mkRipple rid x y k t0 rng).maxRadius) ∧
    (∀ (r : Ripple) (now : ℚ),
      (r.update now).2 = false ↔ r.lifespan ≤ now - r.startTime) := by
  obtain ⟨hsp, hls, hmr, hA, hD, hD1⟩ := getActionParams_pos k
  refine ⟨radius_mono _ (by simpa) (by simpa) a1 a2 h, ?_, ?_⟩
  · intro hm
    rw [radius_atAge] at hm ⊢
    simp only [mkRipple_lifespan, mkRipple_speed, mkRipple_maxRadius] at hm ⊢
    have h1 : (getActionParams k).maxRadius ≤
        a1 / (getActionParams k).lifespan * (getActionParams k).speed * 50 :=
      min_eq_right_iff.mp hm
    have hd : a1 / (getActionParams k).lifespan ≤ a2 / (getActionParams k).lifespan :=
      div_le_div_of_nonneg_right h hls.le
    exact min_eq_right_iff.mpr (by nlinarith)
  · intro r now
    rw [Ripple.update]
    simp [not_lt]

/-- C8 witness at the `LIKE` profile with ages 1 and 2. -/
theorem radius_monotone_witness :
    (1 : ℚ) ≤ 2 ∧
    ((mkRipple 0 0 0 ActionType.LIKE 0 fun _ => 0).atAge 1).getCurrentRadius ≤
      ((mkRipple 0 0 0 ActionType.LIKE 0 fun _ => 0).atAge 2).getCurrentRadius :=
  ⟨by norm_num,
    (radius_monotone_and_advance ActionType.LIKE 0 0 0 0 (fun _ => 0) 1 2
      (by norm_num)).1⟩

/-! ## Claim C6 -/

/-- The real comparison of the source, `Math.sqrt(d2) < R`, agrees with
the square-free test used in the executable `shouldDamp`. -/
lemma sqrt_lt_iff_sq_lt (d2 R : ℝ) (h : 0 ≤ d2) :
    Real.sqrt d2 < R ↔ 0 < R ∧ d2 < R ^ 2 := by
  constructor
  · intro hlt
    have hR : 0 < R := lt_of_le_of_lt (Real.sqrt_nonneg d2) hlt
    have hs := Real.sq_sqrt h
    refine ⟨hR, ?_⟩
    nlinarith [Real.sqrt_nonneg d2]
  · rintro ⟨hR, hlt⟩
    have h1 : Real.sqrt d2 < Real.sqrt (R ^ 2) := Real.sqrt_lt_sqrt h hlt
    rwa [Real.sqrt_sq hR.le] at h1

/-- A `NEGATIVE_COMMENT` ripple at the origin advanced to age 2800, where
`getCurrentRadius() = min(0.8 * 2.5 * 50, 250) = 100`. -/
def silence100 : Ripple :=
  (mkRipple 0 0 0 ActionType.NEGATIVE_COMMENT 0 fun _ => 0).atAge 2800

/-- A `LIKE` ripple at distance `d` along the x axis from the origin. -/
def probeAt (d : ℚ) : Ripple := mkRipple 1 d 0 ActionType.LIKE 0 fun _ => 0

/-- C6: `shouldDamp(other, now)` returns true exactly when the receiver is
a `NEGATIVE_COMMENT` ripple, `other` is a different object, and the
Euclidean distance between the two positions is strictly below
`1.5 * getCurrentRadius()`; hence it is irreflexive, false for every
other kind, and a silence ripple with radius 100 damps a ripple at
distance `d ≥ 0` exactly when `d < 150`. -/
theorem shouldDamp_characterization :
    (∀ (self other : Ripple) (now : ℚ),
        self.shouldDamp other now = true ↔
          self.actionType = ActionType.NEGATIVE_COMMENT ∧ other.rid ≠ self.rid ∧
          Real.sqrt (((self.x - other.x : ℚ) : ℝ) ^ 2 + ((self.y - other.y : ℚ) : ℝ) ^ 2)
            < 3/2 * ((self.getCurrentRadius : ℚ) : ℝ)) ∧
    (∀ (r : Ripple) (now : ℚ), r.shouldDamp r now = false) ∧
    (∀ (self other : Ripple) (now : ℚ),
        self.actionType ≠ ActionType.NEGATIVE_COMMENT →
        self.shouldDamp other now = false) ∧
    (silence100.getCurrentRadius = 100 ∧
      ∀ d : ℚ, 0 ≤ d →
        (silence100.shouldDamp (probeAt d) 2800 = true ↔ d < 150)) := by
  have hrad : silence100.getCurrentRadius = 100 := by
    rw [silence100, radius_atAge]
    norm_num [mkRipple, getActionParams]
  have main : ∀ (self other : Ripple) (now : ℚ),
      self.shouldDamp other now = true ↔
        self.actionType = ActionType.NEGATIVE_COMMENT ∧ other.rid ≠ self.rid ∧
        Real.sqrt (((self.x - other.x : ℚ) : ℝ) ^ 2 + ((self.y - other.y : ℚ) : ℝ) ^ 2)
          < 3/2 * ((self.getCurrentRadius : ℚ) : ℝ) := by
    intro self other now
    rw [Ripple.shouldDamp]
    by_cases h1 : self.actionType = ActionType.NEGATIVE_COMMENT
    · rw [if_neg (by simpa using h1)]
      by_cases h2 : other.rid = self.rid
      · rw [if_pos h2]
        simp [h1, h2]
      · rw [if_neg h2]
        simp only [decide_eq_true_eq]
        have hcast : (3 : ℝ)/2 * ((self.getCurrentRadius : ℚ) : ℝ) =
            ((self.getCurrentRadius * (15/10) : ℚ) : ℝ) := by
          push_cast
          ring
        rw [hcast,
          sqrt_lt_iff_sq_lt _ _ (by positivity)]
        constructor
        · rintro ⟨hp, hlt⟩
          refine ⟨h1, h2, by exact_mod_cast hp, ?_⟩
          rw [pow_two, pow_two, pow_two]
          exact_mod_cast hlt
        · rintro ⟨-, -, hp, hlt⟩
          refine ⟨by exact_mod_cast hp, ?_⟩
          rw [pow_two, pow_two, pow_two] at hlt
          exact_mod_cast hlt
    · rw [if_pos (by simpa using h1)]
      simp [h1]
  refine ⟨main, ?_, ?_, hrad, ?_⟩
  · intro r now
    rw [Ripple.shouldDamp]
    by_cases h1 : r.actionType = ActionType.NEGATIVE_COMMENT
    · rw [if_neg (by simpa using h1), if_pos rfl]
    · rw [if_pos (by simpa using h1)]
  · intro self other now h1
    rw [Ripple.shouldDamp, if_pos (by simpa using h1)]
  · intro d hd
    rw [main silence100 (probeAt d) 2800]
    have hid : (probeAt d).rid ≠ silence100.rid := by
      rw [probeAt, silence100]
      simp
    rw [show silence100.x = 0 from rfl, show silence100.y = 0 from rfl,
      show (probeAt d).x = d from rfl, show (probeAt d).y = 0 from rfl,
      show silence100.actionType = ActionType.NEGATIVE_COMMENT from rfl, hrad]
    have hs : Real.sqrt (((0 - d : ℚ) : ℝ) ^ 2 + ((0 - 0 : ℚ) : ℝ) ^ 2) = (d : ℝ) := by
      rw [show (((0 - d : ℚ) : ℝ) ^ 2 + ((0 - 0 : ℚ) : ℝ) ^ 2) = (d : ℝ) ^ 2 by
        push_cast; ring]
      exact Real.sqrt_sq (by exact_mod_cast hd)
    rw [hs]
    constructor
    · rintro ⟨-, -, hlt⟩
      have hr : (d : ℝ) < 150 := by push_cast at hlt; linarith
      exact_mod_cast hr
    · intro hlt
      refine ⟨rfl, hid, ?_⟩
      have hr : (d : ℝ) < 150 := by exact_mod_cast hlt
      push_cast
      linarith

/-- C6 witness: a concrete probe at distance 100, inside the absorption
band of `silence100`. -/
theorem shouldDamp_witness :
    (0 : ℚ) ≤ 100 ∧
    (silence100.shouldDamp (probeAt 100) 2800 = true ↔ (100 : ℚ) < 150) :=
  ⟨by norm_num, shouldDamp_characterization.2.2.2.2 100 (by norm_num)⟩

/-! ## Claim C10 -/

/-- C10: constructing a `POSITIVE_COMMENT` ripple produces exactly 15
micro ripples, each with radius in `[30, 60]` and start-time offset from
the parent spawn time in `[-100, 100]` milliseconds, for every stream of
unit generator samples. -/
theorem positive_comment_micro_ripples (rid : ℕ) (x y t0 : ℚ) (rng : ℕ → ℚ)
    (hr : ∀ n, 0 ≤ rng n ∧ rng n < 1) :
    (mkRipple rid x y ActionType.POSITIVE_COMMENT t0 rng).microRipples.length = 15 ∧
    ∀ m ∈ (mkRipple rid x y ActionType.POSITIVE_COMMENT t0 rng).microRipples,
      30 ≤ m.radius ∧ m.radius ≤ 60 ∧
      -100 ≤ m.startTime - t0 ∧ m.startTime - t0 ≤ 100 := by
  have hmicro : (mkRipple rid x y ActionType.POSITIVE_COMMENT t0 rng).microRipples =
      generateMicroRipples t0 rng := by
    rw [mkRipple]
    simp
  constructor
  · rw [hmicro, generateMicroRipples]
    simp
  · intro m hm
    rw [hmicro, generateMicroRipples] at hm
    obtain ⟨i, -, heq⟩ := List.mem_map.mp hm
    obtain ⟨hr0, hr1⟩ := hr (4 * i + 3)
    obtain ⟨hs0, hs1⟩ := hr (4 * i + 2)
    subst heq
    refine ⟨?_, ?_, ?_, ?_⟩ <;> simp only [p5random] <;> nlinarith

/-- C10 witness with the all-zero sample stream. -/
theorem positive_comment_micro_witness :
    (∀ n : ℕ, 0 ≤ (0 : ℚ) ∧ (0 : ℚ) < 1) ∧
    (mkRipple 0 0 0 ActionType.POSITIVE_COMMENT 0 fun _ => 0).microRipples.length = 15 :=
  ⟨fun n => by norm_num,
    (positive_comment_micro_ripples 0 0 0 0 (fun _ => 0) fun n => by norm_num).1⟩


/-! ## Claim C9 -/

/-- `getCurrentAmplitude` at a given age, written as a product of the
damping power, the `DISLIKE` droop factor and the linear fade. -/
lemma amplitude_atAge (r : Ripple) (a : ℚ) :
    (r.atAge a).getCurrentAmplitude =
      (r.amplitude : ℝ) *
        (r.damping : ℝ) ^ ((((r.atAge a).getCurrentRadius : ℚ) : ℝ) / 10) *
        (if r.actionType = ActionType.DISLIKE
         then 1 - Real.sin (((a / r.lifespan : ℚ) : ℝ) * Real.pi * 2) * (1/10)
         else 1) *
      (1 - ((a / r.lifespan : ℚ) : ℝ) * (7/10)) := by
  rw [Ripple.getCurrentAmplitude]
  simp only [atAge_age, atAge_lifespan, atAge_amplitude, atAge_damping,
    atAge_actionType]
  generalize ((r.damping : ℝ) ^ ((((r.atAge a).getCurrentRadius : ℚ) : ℝ) / 10)) = f
  split_ifs <;> ring

/-- C9: for every constructed ripple and every age within the lifespan,
`getCurrentAmplitude` is nonnegative; and for the three non-`DISLIKE`
kinds it is non-increasing in the age. -/
theorem amplitude_nonneg_and_monotone (k : ActionType) (rid : ℕ) (x y t0 : ℚ)
    (rng : ℕ → ℚ) :
    (∀ a : ℚ, 0 ≤ a → a ≤ (mkRipple rid x y k t0 rng).lifespan →
      0 ≤ ((mkRipple rid x y k t0 rng).atAge a).getCurrentAmplitude) ∧
    (k ≠ ActionType.DISLIKE →
      ∀ a1 a2 : ℚ, 0 ≤ a1 → a1 ≤ a2 → a2 ≤ (mkRipple rid x y k t0 rng).lifespan →
        ((mkRipple rid x y k t0 rng).atAge a2).getCurrentAmplitude ≤
          ((mkRipple rid x y k t0 rng).atAge a1).getCurrentAmplitude) := by
  obtain ⟨hsp, hls, hmr, hA, hD, hD1⟩ := getActionParams_pos k
  have hAr : (0 : ℝ) ≤ ((getActionParams k).amplitude : ℝ) := by exact_mod_cast hA.le
  have hDr : (0 : ℝ) < ((getActionParams k).damping : ℝ) := by exact_mod_cast hD
  have hD1r : ((getActionParams k).damping : ℝ) ≤ 1 := by exact_mod_cast hD1
  constructor
  · intro a h0 hL
    rw [amplitude_atAge]
    simp only [mkRipple_amplitude, mkRipple_damping, mkRipple_lifespan,
      mkRipple_actionType]
    have hfade : (0 : ℝ) ≤
        1 - ((a / (getActionParams k).lifespan : ℚ) : ℝ) * (7/10) := by
      have hp : (a / (getActionParams k).lifespan : ℚ) ≤ 1 :=
        (div_le_one hls).mpr (by simpa using hL)
      have hpr : ((a / (getActionParams k).lifespan : ℚ) : ℝ) ≤ 1 := by
        exact_mod_cast hp
      linarith
    have hfac : (0 : ℝ) ≤
        (if k = ActionType.DISLIKE
         then 1 - Real.sin (((a / (getActionParams k).lifespan : ℚ) : ℝ) *
            Real.pi * 2) * (1/10)
         else 1) := by
      split_ifs
      · nlinarith [Real.sin_le_one
          (((a / (getActionParams k).lifespan : ℚ) : ℝ) * Real.pi * 2)]
      · norm_num
    exact mul_nonneg
      (mul_nonneg (mul_nonneg hAr (Real.rpow_nonneg hDr.le _)) hfac) hfade
  · intro hk a1 a2 h0 h12 hL2
    rw [amplitude_atAge, amplitude_atAge]
    simp only [mkRipple_amplitude, mkRipple_damping, mkRipple_lifespan,
      mkRipple_actionType, if_neg hk, mul_one]
    set A := ((getActionParams k).amplitude : ℝ) with hA1
    set D := ((getActionParams k).damping : ℝ) with hD2
    set e1 := ((((mkRipple rid x y k t0 rng).atAge a1).getCurrentRadius : ℚ) : ℝ) / 10
      with he1
    set e2 := ((((mkRipple rid x y k t0 rng).atAge a2).getCurrentRadius : ℚ) : ℝ) / 10
      with he2
    set p1 := ((a1 / (getActionParams k).lifespan : ℚ) : ℝ) with hp1
    set p2 := ((a2 / (getActionParams k).lifespan : ℚ) : ℝ) with hp2
    have hrad := radius_mono (mkRipple rid x y k t0 rng)
      (by simpa using hsp) (by simpa using hls) a1 a2 h12
    have hexp : e1 ≤ e2 := by
      rw [he1, he2]
      have hr : ((((mkRipple rid x y k t0 rng).atAge a1).getCurrentRadius : ℚ) : ℝ) ≤
          ((((mkRipple rid x y k t0 rng).atAge a2).getCurrentRadius : ℚ) : ℝ) := by
        exact_mod_cast hrad
      linarith
    have hf : D ^ e2 ≤ D ^ e1 := Real.rpow_le_rpow_of_exponent_ge hDr hD1r hexp
    have hp12 : p1 ≤ p2 := by
      rw [hp1, hp2]
      exact_mod_cast div_le_div_of_nonneg_right h12 hls.le
    have hg : (1 : ℝ) - p2 * (7/10) ≤ 1 - p1 * (7/10) := by linarith
    have hg2 : (0 : ℝ) ≤ 1 - p2 * (7/10) := by
      have hp : (a2 / (getActionParams k).lifespan : ℚ) ≤ 1 :=
        (div_le_one hls).mpr (by simpa using hL2)
      have hpr : p2 ≤ 1 := by rw [hp2]; exact_mod_cast hp
      linarith
    have step1 : A * D ^ e2 * (1 - p2 * (7/10)) ≤ A * D ^ e1 * (1 - p2 * (7/10)) :=
      mul_le_mul_of_nonneg_right (mul_le_mul_of_nonneg_left hf hAr) hg2
    have step2 : A * D ^ e1 * (1 - p2 * (7/10)) ≤ A * D ^ e1 * (1 - p1 * (7/10)) :=
      mul_le_mul_of_nonneg_left hg (mul_nonneg hAr (Real.rpow_nonneg hDr.le _))
    linarith

/-- C9 witness at the `LIKE` profile: nonnegativity at age 0 and the
monotone comparison between ages 0 and 1. -/
theorem amplitude_witness :
    ((0 : ℚ) ≤ 0 ∧ (0 : ℚ) ≤ (mkRipple 0 0 0 ActionType.LIKE 0 fun _ => 0).lifespan ∧
      0 ≤ ((mkRipple 0 0 0 ActionType.LIKE 0 fun _ => 0).atAge 0).getCurrentAmplitude) ∧
    (ActionType.LIKE ≠ ActionType.DISLIKE ∧ (0 : ℚ) ≤ 0 ∧ (0 : ℚ) ≤ 1 ∧
      (1 : ℚ) ≤ (mkRipple 0 0 0 ActionType.LIKE 0 fun _ => 0).lifespan ∧
      ((mkRipple 0 0 0 ActionType.LIKE 0 fun _ => 0).atAge 1).getCurrentAmplitude ≤
        ((mkRipple 0 0 0 ActionType.LIKE 0 fun _ => 0).atAge 0).getCurrentAmplitude) := by
  have hl0 : (0 : ℚ) ≤ (mkRipple 0 0 0 ActionType.LIKE 0 fun _ => 0).lifespan := by
    norm_num [mkRipple, getActionParams]
  have hl1 : (1 : ℚ) ≤ (mkRipple 0 0 0 ActionType.LIKE 0 fun _ => 0).lifespan := by
    norm_num [mkRipple, getActionParams]
  refine ⟨⟨le_refl 0, hl0, ?_⟩, by decide, le_refl 0, by norm_num, hl1, ?_⟩
  · exact (amplitude_nonneg_and_monotone ActionType.LIKE 0 0 0 0 fun _ => 0).1 0
      (le_refl 0) hl0
  · exact (amplitude_nonneg_and_monotone ActionType.LIKE 0 0 0 0 fun _ => 0).2
      (by decide) 0 1 (le_refl 0) (by norm_num) hl1


/-! ## Claim C7 -/

lemma mixedArr_cons_zero (now : ℚ) (r : Ripple) (rest : List Ripple) :
    mixedArr now (r :: rest) 0 = advanceAge now r :: rest := by
  simp [mixedArr]

lemma mixedArr_cons_succ (now : ℚ) (r : Ripple) (rest : List Ripple) (j : ℕ) :
    mixedArr now (r :: rest) (j + 1) = advanceAge now r :: mixedArr now rest j := by
  simp [mixedArr]

/-- The filter callback pass, started after the already-updated prefix
`done`, agrees with the index-based declarative description. -/
lemma tickAux_eq (now : ℚ) (done rest : List Ripple) :
    tickAux now done rest =
      (List.range rest.length).filterMap fun i =>
        if (advanceAge now (rest.getD i default)).age <
            (advanceAge now (rest.getD i default)).lifespan
        then some (advanceAge now (rest.getD i default),
                   (done ++ mixedArr now rest i).any fun o =>
                     o.shouldDamp (advanceAge now (rest.getD i default)) now)
        else none := by
  induction rest generalizing done with
  | nil => simp [tickAux]
  | cons r rest ih =>
    rw [tickAux, ih (done ++ [advanceAge now r])]
    rw [List.length_cons, List.range_succ_eq_map, List.filterMap_cons,
      List.filterMap_map]
    have htail : ∀ j : ℕ,
        (done ++ [advanceAge now r]) ++ mixedArr now rest j =
          done ++ mixedArr now (r :: rest) (j + 1) := by
      intro j
      rw [mixedArr_cons_succ, List.append_assoc, List.singleton_append]
    by_cases hP : (advanceAge now r).age < (advanceAge now r).lifespan
    · simp only [List.getD_cons_zero, mixedArr_cons_zero, if_pos hP,
        List.singleton_append]
      congr 1
      refine List.filterMap_congr ?_
      intro j hj
      simp only [Function.comp_apply, List.getD_cons_succ, htail j]
    · simp only [List.getD_cons_zero, mixedArr_cons_zero, if_neg hP,
        List.nil_append]
      refine List.filterMap_congr ?_
      intro j hj
      simp only [Function.comp_apply, List.getD_cons_succ, htail j]

lemma rippleTick_eq_declTick (now : ℚ) (rs : List Ripple) :
    rippleTick now rs = declTick now rs := by
  rw [rippleTick, tickAux_eq, declTick]
  refine List.filterMap_congr ?_
  intro i hi
  simp only [List.nil_append]

/-- The survivors of the pass are exactly the updated ripples still within
their lifespan, in order. -/
lemma tickAux_fst (now : ℚ) (done rest : List Ripple) :
    (tickAux now done rest).map Prod.fst =
      (rest.map (advanceAge now)).filter fun r => decide (r.age < r.lifespan) := by
  induction rest generalizing done with
  | nil => simp [tickAux]
  | cons r rest ih =>
    rw [tickAux]
    by_cases h : (advanceAge now r).age < (advanceAge now r).lifespan <;>
      simp [h, ih]

lemma ripple_cex_eval :
    rippleTick 3500
        [mkRipple 0 0 0 ActionType.NEGATIVE_COMMENT 0 fun _ => 0,
         mkRipple 1 50 0 ActionType.LIKE 3000 fun _ => 0] =
      [(advanceAge 3500 (mkRipple 1 50 0 ActionType.LIKE 3000 fun _ => 0), true)] := by
  norm_num [rippleTick, tickAux, advanceAge, Ripple.update, mkRipple, getActionParams,
    Ripple.shouldDamp, Ripple.getCurrentRadius, List.any]

/-- C7 counterexample: at `now = 3500` the silence ripple (spawned at time
0 with lifespan 3500) expires on this very tick and is removed, yet the
surviving `LIKE` ripple (spawned at 3000, 50 pixels away) is still
flagged for the 0.3 scale-down, because the damping loop runs over the
pre-filter array, which still contains the expired silence ripple; no
surviving ripple satisfies `shouldDamp` against the survivor, so the
claim's "exactly when some other surviving Ripple satisfies shouldDamp"
is false at this input. -/
theorem ripple_pass_cex :
    (rippleTick 3500
        [mkRipple 0 0 0 ActionType.NEGATIVE_COMMENT 0 fun _ => 0,
         mkRipple 1 50 0 ActionType.LIKE 3000 fun _ => 0]).map Prod.snd = [true] ∧
    ∀ p ∈ rippleTick 3500
        [mkRipple 0 0 0 ActionType.NEGATIVE_COMMENT 0 fun _ => 0,
         mkRipple 1 50 0 ActionType.LIKE 3000 fun _ => 0],
      p.1.shouldDamp
        (advanceAge 3500 (mkRipple 1 50 0 ActionType.LIKE 3000 fun _ => 0)) 3500
        = false := by
  constructor
  · rw [ripple_cex_eval]
    rfl
  · rw [ripple_cex_eval]
    intro p hp
    rw [List.mem_singleton] at hp
    subst hp
    rw [Ripple.shouldDamp]
    norm_num [advanceAge, Ripple.update, mkRipple, getActionParams]

/-- C7 (amended): on each tick every ripple whose `advance(now)` returns
false is removed from the field; a surviving ripple is flagged for the
transient 0.3 amplitude scale-down of its rendering exactly when some
element of the array as the damping loop sees it — elements up to and
including the current one already advanced to `now`, later elements
still at their previously stored ages, and ripples that expire this very
tick included — satisfies `shouldDamp` against it; and the scale-down is
transient: the stored amplitude of every updated ripple is unchanged. -/
theorem ripple_pass_amended (now : ℚ) (rs : List Ripple) :
    rippleTick now rs = declTick now rs ∧
    (rippleTick now rs).map Prod.fst =
      (rs.map (advanceAge now)).filter (fun r => decide (r.age < r.lifespan)) ∧
    ∀ r : Ripple, (advanceAge now r).amplitude = r.amplitude :=
  ⟨rippleTick_eq_declTick now rs, by rw [rippleTick, tickAux_fst], fun r => rfl⟩

end DigitalRipples
